import Mathlib

/-!
Verification development for the vllm-models CI utilities
(`resolve_models.py`, `harvest_licenses.py`, `summary.py`).

The Python sources are shallowly embedded below: pure string/policy logic
becomes Lean functions over `String` / `List Char`; each fallible external
effect (registry lookup, file fetch, network fetch, local file existence)
becomes an explicit `Option`-valued oracle passed in as data.  Python string
truthiness (`if not s:`) is modelled by explicit emptiness tests, and
`str.lower().strip()` by character-list operations mirroring the Python
semantics on ASCII input.
-/

namespace VllmModels

/-! ## Python string primitives -/

/-- Python whitespace characters stripped by `str.strip()` (ASCII subset). -/
def pyWsChar (c : Char) : Bool :=
  c = ' ' || c = '\t' || c = '\n' || c = '\x0d' || c = '\x0b' || c = '\x0c'

/-- Python `str.strip()`: drop whitespace from both ends. -/
def pyStrip (s : String) : String :=
  String.mk (((s.data.dropWhile pyWsChar).reverse.dropWhile pyWsChar).reverse)

/-- Python `str.lower()` (ASCII case folding, characterwise). -/
def pyLower (s : String) : String :=
  String.mk (s.data.map Char.toLower)

/-- The composite `license_id.lower().strip()` used by `normalize_spdx`. -/
def normCore (s : String) : String :=
  pyStrip (pyLower s)

/-- Python truthiness of an optional string: `None` and `""` are falsy. -/
def truthyOS : Option String → Bool
  | none => false
  | some s => s != ""

/-- Python `license_id or "unknown"` (used for the matrix `license` field and
by the harvester NOTICE / OCI labels). -/
def orUnknown : Option String → String
  | none => "unknown"
  | some s => if s != "" then s else "unknown"

/-- Python `str(b)` on a `bool`. -/
def pyBool (b : Bool) : String :=
  if b then "True" else "False"

/-! ## resolve_models.py -/

/-- `normalize_spdx` from `resolve_models.py`: `None`/`""` map to `None`,
otherwise `lower().strip()`. -/
def normalize_spdx (license_id : Option String) : Option String :=
  match license_id with
  | none => none
  | some s => if s = "" then none else some (normCore s)

/-- `is_permissive` from `resolve_models.py`: an explicit override wins;
otherwise a falsy license id is not permissive; otherwise membership of the
normalized id in the normalized whitelist. -/
def is_permissive (license_id : Option String) (whitelist : List String)
    (override : Option Bool) : Bool :=
  match override with
  | some b => b
  | none =>
    match license_id with
    | none => false
    | some s =>
      if s = "" then false
      else decide (normalize_spdx (some s) ∈
        whitelist.map (fun lid => normalize_spdx (some lid)))

/-- The tri-state `permissive`/`gated` override read from a model entry:
an explicit boolean, the string sentinel `"auto"`, or the key being absent. -/
inductive Override where
  | obool : Bool → Override
  | auto : Override
  | unset : Override
deriving DecidableEq

/-- A `publish` object: each key may be present (a boolean) or absent. -/
structure Publish where
  ghcr : Option Bool
  dockerhub : Option Bool
deriving DecidableEq

/-- An `oci` object: each key may be present or absent. -/
structure Oci where
  title : Option String
  description : Option String
  url : Option String
deriving DecidableEq

/-- One entry of the `models` list (validated: `id` and `short` present). -/
structure ModelConfig where
  id : String
  short : String
  revision : Option String
  permissive : Override
  gated : Override
  serve_args : List String
  publish : Option Publish
  oci : Oci
deriving DecidableEq

/-- The `defaults` section (validated: required keys present). -/
structure Defaults where
  spdx_permissive_whitelist : List String
  base_image : String
  publish : Option Publish
  download_root : String
  hf_cache_dir : String
deriving DecidableEq

/-- Outcome of the `model_info` registry lookup inside the `try` block of
`resolve_model`: either the extracted license id (card data over top-level
field, possibly absent), the gated flag, and the revision SHA — or the
lookup raised. -/
inductive RegistryResult where
  | success : Option String → Bool → String → RegistryResult
  | failure : RegistryResult
deriving DecidableEq

/-- The license id as resolved by the `try`/`except` block: the registry
value on success, `None` on lookup failure. -/
def registryLicense : RegistryResult → Option String
  | RegistryResult.success lic _ _ => lic
  | RegistryResult.failure => none

/-- One row of the output build matrix. -/
structure MatrixEntry where
  id : String
  short : String
  revision : String
  license : String
  permissive : Bool
  gated : Bool
  build_fat : Bool
  image : String
  base_image : String
  version : String
  serve_args : String
  oci_title : String
  oci_description : String
  oci_url : String
  publish_ghcr : Bool
  publish_dh : Bool
  download_root : String
  hf_cache_dir : String
deriving DecidableEq

/-- `resolve_model` from `resolve_models.py`, for a validated model entry.
The outcome of the registry lookup is the explicit argument `reg`. -/
def resolve_model (cfg : ModelConfig) (d : Defaults) (reg : RegistryResult) :
    MatrixEntry :=
  let license_id : Option String :=
    match reg with
    | RegistryResult.success lic _ _ => lic
    | RegistryResult.failure => none
  let gated0 : Bool :=
    match reg with
    | RegistryResult.success _ g _ => g
    | RegistryResult.failure => false
  let revision : String :=
    match reg with
    | RegistryResult.success _ _ sha =>
      if truthyOS cfg.revision then cfg.revision.getD "" else sha
    | RegistryResult.failure =>
      if truthyOS cfg.revision then cfg.revision.getD "" else "main"
  let whitelist := d.spdx_permissive_whitelist
  let permissive : Bool :=
    match cfg.permissive with
    | Override.auto => is_permissive license_id whitelist none
    | Override.obool b => b
    | Override.unset => false
  let is_gated : Bool :=
    match cfg.gated with
    | Override.auto => gated0
    | Override.obool b => b
    | Override.unset => false
  let build_fat := permissive && !is_gated
  let image_name := "hf-" ++ cfg.short
  let base_image := d.base_image
  let base_version :=
    if base_image.contains ':' then (base_image.splitOn ":").getLastD ""
    else "latest"
  let publish : Publish :=
    match cfg.publish with
    | some p => p
    | none =>
      match d.publish with
      | some p => p
      | none => ⟨none, none⟩
  { id := cfg.id
    short := cfg.short
    revision := revision
    license := orUnknown license_id
    permissive := permissive
    gated := is_gated
    build_fat := build_fat
    image := image_name
    base_image := base_image
    version := base_version
    serve_args := String.intercalate " " cfg.serve_args
    oci_title := cfg.oci.title.getD ("vLLM + " ++ cfg.id)
    oci_description := cfg.oci.description.getD ""
    oci_url := cfg.oci.url.getD ("https://huggingface.co/" ++ cfg.id)
    publish_ghcr := publish.ghcr.getD true
    publish_dh := publish.dockerhub.getD true
    download_root := d.download_root
    hf_cache_dir := d.hf_cache_dir }

/-- A raw (unvalidated) model entry: `id` or `short` may be missing, in
which case `resolve_model` raises a `KeyError` in Python. -/
structure RawModelConfig where
  id : Option String
  short : Option String
  revision : Option String
  permissive : Override
  gated : Override
  serve_args : List String
  publish : Option Publish
  oci : Oci
deriving DecidableEq

/-- A raw `defaults` section: the keys read with `defaults[...]` may be
missing, in which case `resolve_model` raises a `KeyError` in Python. -/
structure RawDefaults where
  spdx_permissive_whitelist : Option (List String)
  base_image : Option String
  publish : Option Publish
  download_root : Option String
  hf_cache_dir : Option String
deriving DecidableEq

/-- `resolve_model` on raw input: Python raises `KeyError` as soon as a
required key is missing; this is modelled as validation followed by the
total `resolve_model`, which raises in exactly the same cases and computes
the same entry. -/
def resolve_modelE (m : RawModelConfig) (d : RawDefaults)
    (reg : RegistryResult) : Except String MatrixEntry :=
  match m.id, m.short, d.spdx_permissive_whitelist, d.base_image,
      d.download_root, d.hf_cache_dir with
  | some i, some s, some wl, some bi, some dr, some hc =>
    Except.ok (resolve_model
      ⟨i, s, m.revision, m.permissive, m.gated, m.serve_args, m.publish,
        m.oci⟩
      ⟨wl, bi, d.publish, dr, hc⟩ reg)
  | _, _, _, _, _, _ => Except.error "KeyError"

/-- The matrix accumulated by the loop in `main`: entries whose resolution
raised are skipped (after a logged diagnostic), the rest are kept in
order. -/
def resolveAll (d : RawDefaults)
    (models : List (RawModelConfig × RegistryResult)) : List MatrixEntry :=
  models.filterMap (fun mr => (resolve_modelE mr.1 d mr.2).toOption)

/-- `main` from `resolve_models.py`, from the parsed configuration on:
exit code 1 when the models list is empty (or missing, which parses to the
empty default), exit code 1 when no model resolved, otherwise the matrix. -/
def mainRun (d : RawDefaults)
    (models : List (RawModelConfig × RegistryResult)) :
    Except Nat (List MatrixEntry) :=
  if models.isEmpty then Except.error 1
  else
    let matrix := resolveAll d models
    if matrix.isEmpty then Except.error 1
    else Except.ok matrix

/-! ## summary.py -/

/-- The matrix entry as read by `generate_summary`: the fields accessed
with `matrix_entry[...]` are required, the publish flags are read with
`.get(..., True)` and may be absent. -/
structure SummaryEntry where
  id : String
  short : String
  revision : String
  license : String
  permissive : Bool
  gated : Bool
  build_fat : Bool
  image : String
  version : String
  publish_ghcr : Option Bool
  publish_dh : Option Bool
deriving DecidableEq

/-- The header block of the summary (model information section). -/
def summaryHeader (e : SummaryEntry) : String :=
  "## Build Summary: " ++ e.id ++
  "\n\n### Model Information\n- **Model ID**: `" ++ e.id ++
  "`\n- **Short Name**: `" ++ e.short ++
  "`\n- **Revision**: `" ++ e.revision ++
  "`\n- **License**: `" ++ e.license ++
  "`\n- **Permissive**: `" ++ pyBool e.permissive ++
  "`\n- **Gated**: `" ++ pyBool e.gated ++
  "`\n\n### Build Decision\n"

/-- The build-decision lines, exactly as branched in `generate_summary`. -/
def buildDecisionLines (e : SummaryEntry) : String :=
  if e.build_fat then
    "- **Slim Image**: ✅ Built\n" ++
    "- **Fat Image**: ✅ Built (permissive, non-gated)\n"
  else
    "- **Slim Image**: ✅ Built\n" ++
    (if e.gated then "- **Fat Image**: ❌ Skipped (gated model)\n"
     else if !e.permissive then
       "- **Fat Image**: ❌ Skipped (non-permissive license)\n"
     else "- **Fat Image**: ❌ Skipped (unknown reason)\n")

/-- The two GHCR slim tag lines. -/
def ghcrSlimTags (e : SummaryEntry) (reg_ghcr : String) : String :=
  "- `" ++ reg_ghcr ++ "/" ++ e.image ++ ":" ++ e.version ++ "-slim`\n" ++
  "- `" ++ reg_ghcr ++ "/" ++ e.image ++ ":r" ++ e.revision.take 7 ++
  "-slim`\n"

/-- The two Docker Hub slim tag lines. -/
def dhSlimTags (e : SummaryEntry) (reg_dh : String) : String :=
  "- `" ++ reg_dh ++ "/" ++ e.image ++ ":" ++ e.version ++ "-slim`\n" ++
  "- `" ++ reg_dh ++ "/" ++ e.image ++ ":r" ++ e.revision.take 7 ++
  "-slim`\n"

/-- The two GHCR fat tag lines. -/
def ghcrFatTags (e : SummaryEntry) (reg_ghcr : String) : String :=
  "- `" ++ reg_ghcr ++ "/" ++ e.image ++ ":" ++ e.version ++ "-fat`\n" ++
  "- `" ++ reg_ghcr ++ "/" ++ e.image ++ ":r" ++ e.revision.take 7 ++
  "-fat`\n"

/-- The two Docker Hub fat tag lines. -/
def dhFatTags (e : SummaryEntry) (reg_dh : String) : String :=
  "- `" ++ reg_dh ++ "/" ++ e.image ++ ":" ++ e.version ++ "-fat`\n" ++
  "- `" ++ reg_dh ++ "/" ++ e.image ++ ":r" ++ e.revision.take 7 ++
  "-fat`\n"

/-- The image-tags section: slim tags per enabled target, then (only when
the fat image was built) fat tags per enabled target.  A missing publish
flag defaults to `True` via `.get("publish_...", True)`. -/
def tagSection (e : SummaryEntry) (reg_ghcr reg_dh : String) : String :=
  "\n### Image Tags\n\n**Slim**:\n" ++
  (if e.publish_ghcr.getD true then ghcrSlimTags e reg_ghcr else "") ++
  (if e.publish_dh.getD true then dhSlimTags e reg_dh else "") ++
  (if e.build_fat then
    "\n**Fat**:\n" ++
    (if e.publish_ghcr.getD true then ghcrFatTags e reg_ghcr else "") ++
    (if e.publish_dh.getD true then dhFatTags e reg_dh else "")
  else "")

/-- The compliance block and the usage examples. -/
def complianceUsage (e : SummaryEntry) (reg_ghcr : String) : String :=
  "\n### Compliance\n- **Licenses Bundled**: " ++
  (if e.build_fat then "✅ Yes (/licenses/)" else "N/A (slim only)") ++
  "\n- **OCI Labels**: ✅ Applied\n- **Security Scan**: See Trivy results below\n\n### Usage\n\n**Slim** (downloads model at runtime):\n```bash\ndocker run -p 8000:8000 \\\n  -v $(pwd)/models:/models \\\n  -e HUGGING_FACE_HUB_TOKEN=your_token \\\n  " ++
  reg_ghcr ++ "/" ++ e.image ++ ":" ++ e.version ++ "-slim\n```\n" ++
  (if e.build_fat then
    "\n**Fat** (model embedded):\n```bash\ndocker run -p 8000:8000 \\\n  " ++
    reg_ghcr ++ "/" ++ e.image ++ ":" ++ e.version ++ "-fat\n```\n"
  else "")

/-- `generate_summary` from `summary.py`: the concatenation of the blocks
accumulated by the successive `summary +=` statements. -/
def generate_summary (e : SummaryEntry) (reg_ghcr reg_dh : String) :
    String :=
  summaryHeader e ++ buildDecisionLines e ++ tagSection e reg_ghcr reg_dh ++
  complianceUsage e reg_ghcr ++ "\n---\n"

/-! ## harvest_licenses.py -/

/-- The vendored MIT text from the `SPDX_TEXTS` table. -/
def mitVendoredText : String :=
  "MIT License\n\n[NOTE: This is a vendored SPDX canonical text. The upstream repository\ndid not include a LICENSE file but declared license: mit in metadata.]\n\nFull text available at: https://opensource.org/licenses/MIT\n"

/-- The vendored Apache-2.0 text from the `SPDX_TEXTS` table. -/
def apacheVendoredText : String :=
  "Apache License 2.0\n\n[NOTE: This is a vendored SPDX canonical text. The upstream repository\ndid not include a LICENSE file but declared license: apache-2.0 in metadata.]\n\nFull text available at: https://www.apache.org/licenses/LICENSE-2.0\n"

/-- Lookup in the `SPDX_TEXTS` dictionary of vendored license texts. -/
def SPDX_TEXTS_find (key : String) : Option String :=
  if key = "apache-2.0" then some apacheVendoredText
  else if key = "mit" then some mitVendoredText
  else none

/-- `fetch_spdx_canonical_text`: the vendored table is consulted first
(keyed by the lowercased id); only on a miss is the network oracle `net`
asked for the raw canonical text, which on success is wrapped with a NOTE
header; any network failure yields `none`. -/
def fetch_spdx_canonical_text (spdx_id : String)
    (net : String → Option String) : Option String :=
  match SPDX_TEXTS_find (pyLower spdx_id) with
  | some t => some t
  | none =>
    match net spdx_id with
    | some body =>
      some ("[NOTE: This is canonical SPDX text for " ++ spdx_id ++
        ".\nThe upstream repository did not include a LICENSE file.]\n\n" ++
        body ++ "\n")
    | none => none

/-- The LICENSE fallback chain: `LICENSE`, then (if the previous attempt
produced nothing truthy) `LICENSE.md`, then `LICENSE.txt`. -/
def licenseChain (fetch : String → Option String) : Option String :=
  let l1 := fetch "LICENSE"
  let l2 := if truthyOS l1 then l1 else fetch "LICENSE.md"
  if truthyOS l2 then l2 else fetch "LICENSE.txt"

/-- Observer for the LICENSE chain: the list of filenames whose fetch is
actually attempted, in execution order. -/
def licenseAttempts (fetch : String → Option String) : List String :=
  "LICENSE" ::
    (if truthyOS (fetch "LICENSE") then []
     else "LICENSE.md" ::
       (if truthyOS (fetch "LICENSE.md") then [] else ["LICENSE.txt"]))

/-- The NOTICE fallback chain: `NOTICE`, `NOTICE.md`, `NOTICE.txt`. -/
def noticeChain (fetch : String → Option String) : Option String :=
  let n1 := fetch "NOTICE"
  let n2 := if truthyOS n1 then n1 else fetch "NOTICE.md"
  if truthyOS n2 then n2 else fetch "NOTICE.txt"

/-- `generate_project_notice` from `harvest_licenses.py`. -/
def generate_project_notice (repo_id : String) (license_id : Option String)
    (has_upstream_license has_upstream_notice : Bool) : String :=
  "NOTICE\n\nThis Docker image contains multiple components with different licenses:\n\n1. Infrastructure Code (this repository)\n   License: CC0-1.0\n   Location: /licenses/CC0\n\n2. Model: " ++
  repo_id ++ "\n   License: " ++ orUnknown license_id ++ "\n" ++
  (if has_upstream_license then "   Location: /licenses/model/LICENSE\n"
   else
     "   Location: /licenses/model/LICENSE (vendored SPDX canonical text)\n") ++
  (if has_upstream_notice then "   Upstream NOTICE: /licenses/model/NOTICE\n"
   else "") ++
  "\n3. vLLM (base image)\n   License: Apache-2.0\n   See: https://github.com/vllm-project/vllm\n\nModifications: This image bundles the model weights and adds startup scripts.\nAll trademarks are property of their respective owners.\n"

/-- The external world as seen by one `harvest_licenses` run: the per-file
hub fetch (`None` = failed/not found), the registry metadata lookup used
when no license id was passed (`none` = the lookup raised, otherwise the
extracted license id), the SPDX network fetch, and the contents of the
infrastructure `LICENSE` file if it exists on the local filesystem. -/
structure HarvestEnv where
  fetchFile : String → Option String
  registryLicense : Option (Option String)
  spdxNet : String → Option String
  cc0Source : Option String

/-- The files written under the output directory by one harvest run
(directory creation assumed to succeed), plus the generated OCI labels. -/
structure Bundle where
  modelLicense : Option String
  modelNotice : Option String
  cc0 : Option String
  notice : String
  oci_licenses : String
  oci_source : String
  oci_url : String
deriving DecidableEq

/-- `harvest_licenses` from `harvest_licenses.py`, with every external
effect supplied by `env`. -/
def harvest_licenses (model_id : String) (revision : Option String)
    (license_arg : Option String) (env : HarvestEnv) : Bundle :=
  let license_id : Option String :=
    if truthyOS license_arg then license_arg
    else
      match env.registryLicense with
      | some l => l
      | none => license_arg
  let upstream0 := licenseChain env.fetchFile
  let has_upstream_license := upstream0.isSome
  let upstream_license : Option String :=
    match license_id with
    | some s =>
      if truthyOS upstream0 then upstream0
      else if s != "" then fetch_spdx_canonical_text s env.spdxNet
      else upstream0
    | none => upstream0
  let notice0 := noticeChain env.fetchFile
  let has_upstream_notice := notice0.isSome
  { modelLicense := if truthyOS upstream_license then upstream_license
      else none
    modelNotice := if truthyOS notice0 then notice0 else none
    cc0 := env.cc0Source
    notice := generate_project_notice model_id license_id
      has_upstream_license has_upstream_notice
    oci_licenses := "CC0-1.0; includes third-party: " ++
      orUnknown license_id ++ " (model), Apache-2.0 (vLLM)"
    oci_source := "https://github.com/13fragments/vllm-models"
    oci_url := "https://huggingface.co/" ++ model_id }

/-! ## Concrete example data for counterexamples and witnesses -/

/-- A minimal model configuration with no pinned revision. -/
def cfg3cex : ModelConfig :=
  ⟨"org/m", "m", none, Override.unset, Override.unset, [], none,
    ⟨none, none, none⟩⟩

/-- A minimal defaults section. -/
def d3cex : Defaults :=
  ⟨["apache-2.0"], "vllm/vllm-openai:v0.5.0", none, "/models", "/cache"⟩

/-- A harvest environment whose local filesystem lacks the infrastructure
LICENSE file. -/
def env4cex : HarvestEnv :=
  ⟨fun _ => none, some (some "mit"), fun _ => none, none⟩

/-- A raw model entry with all required keys present. -/
def rm7good : RawModelConfig :=
  ⟨some "org/good", some "good", none, Override.unset, Override.unset, [],
    none, ⟨none, none, none⟩⟩

/-- A raw model entry missing its id key, so its resolution raises. -/
def rm7bad : RawModelConfig :=
  ⟨none, some "bad", none, Override.unset, Override.unset, [], none,
    ⟨none, none, none⟩⟩

/-- A raw defaults section with all required keys present. -/
def rd7 : RawDefaults :=
  ⟨some ["apache-2.0"], some "vllm/vllm-openai:v0.5.0", none,
    some "/models", some "/cache"⟩

/-- A two-model run: one raising entry followed by one resolving entry,
both with failed registry lookups. -/
def models7 : List (RawModelConfig × RegistryResult) :=
  [(rm7bad, RegistryResult.failure), (rm7good, RegistryResult.failure)]

/-- The matrix entry produced for the resolving model of `models7`. -/
def entry7 : MatrixEntry :=
  resolve_model
    ⟨"org/good", "good", none, Override.unset, Override.unset, [], none,
      ⟨none, none, none⟩⟩
    ⟨["apache-2.0"], "vllm/vllm-openai:v0.5.0", none, "/models", "/cache"⟩
    RegistryResult.failure

/-- A harvest environment in which every external fetch fails. -/
def env8w : HarvestEnv :=
  ⟨fun _ => none, none, fun _ => none, none⟩

/-- A model configuration supplying an empty publish object. -/
def cfg9cex : ModelConfig :=
  ⟨"org/m", "m", none, Override.unset, Override.unset, [],
    some ⟨none, none⟩, ⟨none, none, none⟩⟩

/-- A defaults section whose publish object disables Docker Hub. -/
def d9cex : Defaults :=
  ⟨[], "vllm/vllm-openai:v0.5.0", some ⟨some true, some false⟩,
    "/models", "/cache"⟩

/-- A summary entry for a fat build whose publish_ghcr key is absent while
publish_dh is explicitly false. -/
def e10y : SummaryEntry :=
  ⟨"org/m", "m", "deadbeefcafe", "mit", true, false, true, "hf-m",
    "v0.5.0", none, some false⟩

/-- A summary entry for a fat build whose publish_dh key is absent while
publish_ghcr is explicitly false. -/
def e10z : SummaryEntry :=
  ⟨"org/m", "m", "deadbeefcafe", "mit", true, false, true, "hf-m",
    "v0.5.0", some false, none⟩

/-- Transcribed from the specification wording for C5: the fat-image line
reports built exactly when build_fat holds, and otherwise reports skipped
with the gated reason taking priority over the non-permissive reason, with
an unknown-reason fallback. -/
def specFatDecisionLine (e : SummaryEntry) : String :=
  if e.build_fat then "- **Fat Image**: ✅ Built (permissive, non-gated)\n"
  else if e.gated then "- **Fat Image**: ❌ Skipped (gated model)\n"
  else if e.permissive = false then
    "- **Fat Image**: ❌ Skipped (non-permissive license)\n"
  else "- **Fat Image**: ❌ Skipped (unknown reason)\n"

/-! ## Shared helper lemmas -/

/-- String concatenation is associative (via the underlying character
lists). -/
theorem strAppendThree (a b c : String) : a ++ b ++ c = a ++ (b ++ c) := by
  cases a with
  | mk la =>
    cases b with
    | mk lb =>
      cases c with
      | mk lc =>
        show String.mk (la ++ lb ++ lc) = String.mk (la ++ (lb ++ lc))
        exact congrArg String.mk (List.append_assoc la lb lc)

/-- A resolution result converts to `none` exactly when it is an error. -/
theorem toOption_none_iff (x : Except String MatrixEntry) :
    x.toOption = none ↔ ∃ msg, x = Except.error msg := by
  cases x <;> simp [Except.toOption]

/-- `normalize_spdx` sends two strings to the same value whenever they are
empty together and have the same lowercased-stripped core. -/
theorem normalize_spdx_congr (a b : String) (hiff : (a = "") ↔ (b = ""))
    (h : normCore a = normCore b) :
    normalize_spdx (some a) = normalize_spdx (some b) := by
  unfold normalize_spdx
  by_cases ha : a = ""
  · simp [ha, hiff.mp ha]
  · have hb : ¬ b = "" := fun hb => ha (hiff.mpr hb)
    simp [ha, hb, h]

/-- The summary header ignores the publish flags. -/
theorem summaryHeader_pub (e : SummaryEntry) (o1 o2 : Option Bool) :
    summaryHeader { e with publish_ghcr := o1, publish_dh := o2 }
      = summaryHeader e := rfl

/-- The build-decision lines ignore the publish flags. -/
theorem buildDecisionLines_pub (e : SummaryEntry) (o1 o2 : Option Bool) :
    buildDecisionLines { e with publish_ghcr := o1, publish_dh := o2 }
      = buildDecisionLines e := rfl

/-- The GHCR slim tag lines ignore the publish flags. -/
theorem ghcrSlimTags_pub (e : SummaryEntry) (o1 o2 : Option Bool)
    (r : String) :
    ghcrSlimTags { e with publish_ghcr := o1, publish_dh := o2 } r
      = ghcrSlimTags e r := rfl

/-- The Docker Hub slim tag lines ignore the publish flags. -/
theorem dhSlimTags_pub (e : SummaryEntry) (o1 o2 : Option Bool)
    (r : String) :
    dhSlimTags { e with publish_ghcr := o1, publish_dh := o2 } r
      = dhSlimTags e r := rfl

/-- The GHCR fat tag lines ignore the publish flags. -/
theorem ghcrFatTags_pub (e : SummaryEntry) (o1 o2 : Option Bool)
    (r : String) :
    ghcrFatTags { e with publish_ghcr := o1, publish_dh := o2 } r
      = ghcrFatTags e r := rfl

/-- The Docker Hub fat tag lines ignore the publish flags. -/
theorem dhFatTags_pub (e : SummaryEntry) (o1 o2 : Option Bool)
    (r : String) :
    dhFatTags { e with publish_ghcr := o1, publish_dh := o2 } r
      = dhFatTags e r := rfl

/-- The compliance and usage blocks ignore the publish flags. -/
theorem complianceUsage_pub (e : SummaryEntry) (o1 o2 : Option Bool)
    (r : String) :
    complianceUsage { e with publish_ghcr := o1, publish_dh := o2 } r
      = complianceUsage e r := rfl

/-! ## Claim theorems -/

/-- C1: for every model configuration, defaults section and registry
outcome, the emitted matrix entry satisfies
`build_fat = permissive AND NOT gated`; the field is computed solely from
the two resolved flags of the same entry. -/
theorem c1_build_fat_invariant (cfg : ModelConfig) (d : Defaults)
    (reg : RegistryResult) :
    (resolve_model cfg d reg).build_fat
      = ((resolve_model cfg d reg).permissive
          && !(resolve_model cfg d reg).gated) := rfl

/-- C2: the resolved permissive flag is the explicit boolean override
verbatim when one is given; under the sentinel value auto it is membership
of the registry-reported license identifier in the normalized whitelist of
the defaults (a missing or empty identifier yields false); and with no
override at all it is false. -/
theorem c2_permissive_flag_resolution (cfg : ModelConfig) (d : Defaults)
    (reg : RegistryResult) :
    (resolve_model cfg d reg).permissive =
      (match cfg.permissive with
       | Override.obool b => b
       | Override.unset => false
       | Override.auto =>
         match registryLicense reg with
         | none => false
         | some s =>
           if s = "" then false
           else decide (some (normCore s) ∈
             d.spdx_permissive_whitelist.map
               (fun lid => normalize_spdx (some lid)))) := by
  cases hp : cfg.permissive <;> cases hr : reg <;>
    simp [resolve_model, hp, hr, registryLicense, is_permissive]
  case auto.success lic g sha =>
    cases lic with
    | none => rfl
    | some s =>
      by_cases hs : s = "" <;> simp [hs, normalize_spdx]

/-- C3 counterexample: when the registry lookup fails and the model
configuration pins no revision, the emitted matrix entry carries the
floating branch name "main" as its revision — refuting the claim that the
revision is never a floating reference in exactly this situation. -/
theorem c3_revision_floating_counterexample :
    cfg3cex.revision = none
    ∧ (resolve_model cfg3cex d3cex RegistryResult.failure).revision
        = "main" := ⟨rfl, rfl⟩

/-- C3 amended: every emitted matrix entry has a non-empty license field
(the literal "unknown" when the registry-reported identifier is absent or
empty), and its revision is the pinned revision when a non-empty one was
given, the registry SHA when the lookup succeeds and none was pinned, and
the default branch name "main" when the lookup fails and none was
pinned. -/
theorem c3_license_and_revision_amended (cfg : ModelConfig) (d : Defaults)
    (reg : RegistryResult) :
    (resolve_model cfg d reg).license = orUnknown (registryLicense reg)
    ∧ ((resolve_model cfg d reg).license != "") = true
    ∧ (resolve_model cfg d reg).revision =
        (match cfg.revision with
         | some r =>
           if r != "" then r
           else (match reg with
                 | RegistryResult.success _ _ sha => sha
                 | RegistryResult.failure => "main")
         | none =>
           match reg with
           | RegistryResult.success _ _ sha => sha
           | RegistryResult.failure => "main") := by
  refine ⟨?_, ?_, ?_⟩
  · cases reg <;> rfl
  · cases hr : reg <;> simp [resolve_model, registryLicense, orUnknown]
    case success lic g sha =>
      cases lic with
      | none => simp [orUnknown]
      | some s => by_cases hs : s = "" <;> simp [orUnknown, hs]
  · cases hr : reg <;> cases hc : cfg.revision <;>
      simp [resolve_model, hr, hc, truthyOS]

/-- C4 counterexample: a harvest run in an environment where the
infrastructure LICENSE file is absent from the local filesystem produces a
bundle with no CC0 file at all, refuting the claim that the bundle
contains exactly one infrastructure license file regardless of the state
of the local filesystem source. -/
theorem c4_cc0_missing_source_counterexample :
    env4cex.cc0Source = none
    ∧ (harvest_licenses "org/m" none (some "mit") env4cex).cc0 = none :=
  ⟨rfl, rfl⟩

/-- C4 amended: the CC0 file written into the bundle is exactly the
contents of the infrastructure LICENSE file when it exists on the local
filesystem, and is omitted when that file is missing; the outcome is
independent of every registry or network effect of the run. -/
theorem c4_cc0_copied_iff_source_exists (model_id : String)
    (revision license_arg : Option String) (env : HarvestEnv) :
    (harvest_licenses model_id revision license_arg env).cc0
      = env.cc0Source := rfl

/-- C5: the rendered summary always reports the slim image built, and its
fat-image line follows the priority rule of the specification: built
exactly when build_fat is true, otherwise skipped for the gated reason
when gated is true, otherwise for the non-permissive reason when
permissive is false, otherwise for an unknown reason — in particular a
gated, non-permissive entry is reported with the gated reason. -/
theorem c5_fat_skip_reason_priority (e : SummaryEntry) (rg rd : String) :
    generate_summary e rg rd
      = summaryHeader e
        ++ ("- **Slim Image**: ✅ Built\n" ++ specFatDecisionLine e)
        ++ tagSection e rg rd ++ complianceUsage e rg ++ "\n---\n" := by
  unfold generate_summary buildDecisionLines specFatDecisionLine
  cases hb : e.build_fat <;> cases hg : e.gated <;>
    cases hp : e.permissive <;> simp [hb, hg, hp]

/-- C6 counterexample: the empty string and a single space differ only in
surrounding whitespace (their lowercased-stripped cores agree), yet with
the whitelist consisting of a single space the whitelist-membership test
returns false for the former and true for the latter — the empty string is
special-cased as a missing license. -/
theorem c6_empty_vs_whitespace_counterexample :
    normCore "" = normCore " "
    ∧ is_permissive (some "") [" "] none = false
    ∧ is_permissive (some " ") [" "] none = true := by decide

/-- C6 amended: for all pairs of non-empty license identifier strings that
differ only in letter case or surrounding whitespace (equal
lowercased-stripped cores), and all whitelists whose entries are pairwise
varied the same way (empty entries corresponding to empty entries), the
whitelist-membership test returns the same result. -/
theorem c6_normalization_invariance (s t : String) (wl wl' : List String)
    (hs : s ≠ "") (ht : t ≠ "")
    (hst : normCore s = normCore t)
    (hwl : List.Forall₂
      (fun a b => ((a = "") ↔ (b = "")) ∧ normCore a = normCore b) wl wl') :
    is_permissive (some s) wl none = is_permissive (some t) wl' none := by
  have hmap : wl.map (fun lid => normalize_spdx (some lid))
      = wl'.map (fun lid => normalize_spdx (some lid)) := by
    induction hwl with
    | nil => rfl
    | cons h _ ih =>
      simp only [List.map_cons, ih, List.cons.injEq, and_true]
      exact normalize_spdx_congr _ _ h.1 h.2
  have e1 : is_permissive (some s) wl none
      = if s = "" then false
        else decide (normalize_spdx (some s) ∈
          wl.map (fun lid => normalize_spdx (some lid))) := rfl
  have e2 : is_permissive (some t) wl' none
      = if t = "" then false
        else decide (normalize_spdx (some t) ∈
          wl'.map (fun lid => normalize_spdx (some lid))) := rfl
  have en1 : normalize_spdx (some s) = some (normCore s) := by
    simp [normalize_spdx, hs]
  have en2 : normalize_spdx (some t) = some (normCore t) := by
    simp [normalize_spdx, ht]
  rw [e1, e2, if_neg hs, if_neg ht, en1, en2, hst, hmap]

/-- C6 witness: the invariance theorem applied to the concrete example of
the specification — a capitalized form against an upper-cased,
whitespace-padded form, with a case/whitespace-varied whitelist entry. -/
theorem c6_normalization_invariance_witness :
    is_permissive (some "Apache-2.0") ["apache-2.0"] none
      = is_permissive (some " APACHE-2.0 ") ["Apache-2.0 "] none :=
  c6_normalization_invariance "Apache-2.0" " APACHE-2.0 "
    ["apache-2.0"] ["Apache-2.0 "]
    (by decide) (by decide) (by decide)
    (List.Forall₂.cons ⟨by decide, by decide⟩ List.Forall₂.nil)

/-- C7: the resolver run exits with code 1 exactly when the models list is
empty or every single resolution raises; the registry outcome never
changes whether a given model raises (a lookup failure still yields a
fallback entry); and any model whose resolution succeeds has its entry in
the emitted matrix while raising models are merely skipped. -/
theorem c7_main_failure_conditions (d : RawDefaults)
    (models : List (RawModelConfig × RegistryResult)) :
    (mainRun d models = Except.error 1 ↔
      models = [] ∨ ∀ mr ∈ models, ∃ msg,
        resolve_modelE mr.1 d mr.2 = Except.error msg)
    ∧ (∀ m : RawModelConfig, ∀ r r' : RegistryResult,
        (resolve_modelE m d r).isOk = (resolve_modelE m d r').isOk)
    ∧ (∀ mr : RawModelConfig × RegistryResult, ∀ e : MatrixEntry,
        mr ∈ models → resolve_modelE mr.1 d mr.2 = Except.ok e →
        ∃ out, mainRun d models = Except.ok out ∧ e ∈ out) := by
  refine ⟨?_, ?_, ?_⟩
  · by_cases hm : models = []
    · simp [mainRun, hm]
    · have hm' : models.isEmpty = false := by
        simp [List.isEmpty_iff, hm]
      by_cases hr : resolveAll d models = []
      · have hr2 := hr
        unfold resolveAll at hr2
        rw [List.filterMap_eq_nil_iff] at hr2
        have hall : ∀ mr ∈ models, ∃ msg,
            resolve_modelE mr.1 d mr.2 = Except.error msg := by
          intro mr hmr
          exact (toOption_none_iff _).mp (hr2 mr hmr)
        have hmain : mainRun d models = Except.error 1 := by
          simp [mainRun, hm', hr]
        constructor
        · intro _
          exact Or.inr hall
        · intro _
          exact hmain
      · have hr' : (resolveAll d models).isEmpty = false := by
          simp [List.isEmpty_iff, hr]
        have hx : ∃ a ∈ models,
            (resolve_modelE a.1 d a.2).toOption.isSome := by
          by_contra hall
          push_neg at hall
          apply hr
          unfold resolveAll
          rw [List.filterMap_eq_nil_iff]
          intro a ha
          have := hall a ha
          cases hopt : (resolve_modelE a.1 d a.2).toOption with
          | none => rfl
          | some v => rw [hopt] at this; simp at this
        have hmain : mainRun d models
            = Except.ok (resolveAll d models) := by
          simp [mainRun, hm', hr']
        rw [hmain]
        constructor
        · intro h
          exact absurd h (by simp)
        · intro h
          rcases h with h | h
          · exact absurd h hm
          · obtain ⟨a, ha, hsome⟩ := hx
            obtain ⟨msg, hmsg⟩ := h a ha
            rw [hmsg] at hsome
            simp [Except.toOption] at hsome
  · intro m r r'
    rcases m with ⟨mi, ms, mrv, mp, mg, msa, mpub, moci⟩
    rcases d with ⟨dw, db, dp, dd, dh⟩
    cases mi <;> cases ms <;> cases dw <;> cases db <;> cases dd <;>
      cases dh <;> rfl
  · intro mr e hmem hok
    have hm : models ≠ [] := List.ne_nil_of_mem hmem
    have hm' : models.isEmpty = false := by simp [List.isEmpty_iff, hm]
    have he : e ∈ resolveAll d models := by
      unfold resolveAll
      rw [List.mem_filterMap]
      exact ⟨mr, hmem, by rw [hok]; rfl⟩
    have hr : resolveAll d models ≠ [] := List.ne_nil_of_mem he
    have hr' : (resolveAll d models).isEmpty = false := by
      simp [List.isEmpty_iff, hr]
    refine ⟨resolveAll d models, ?_, he⟩
    simp [mainRun, hm', hr']

/-- C7 witness: a two-model run in which the first model is missing its id
key (its resolution raises) and the second resolves against a failed
registry lookup still succeeds and emits the entry of the second model. -/
theorem c7_main_failure_conditions_witness :
    ∃ out, mainRun rd7 models7 = Except.ok out ∧ entry7 ∈ out :=
  (c7_main_failure_conditions rd7 models7).2.2
    (rm7good, RegistryResult.failure) entry7 (by decide) rfl

/-- C8: when none of LICENSE, LICENSE.md, LICENSE.txt is available
upstream and the license identifier mit is supplied, the harvested model
LICENSE equals the vendored MIT text from the built-in table (whatever the
network oracle would answer, the table is consulted first), the candidate
filenames are attempted in order — all three here, and in general the
chain stops at the first non-empty success — and the aggregate NOTICE
annotates the model license location as vendored substitute text. -/
theorem c8_vendored_mit_fallback (model_id : String)
    (rev : Option String) (env : HarvestEnv)
    (h1 : env.fetchFile "LICENSE" = none)
    (h2 : env.fetchFile "LICENSE.md" = none)
    (h3 : env.fetchFile "LICENSE.txt" = none) :
    (harvest_licenses model_id rev (some "mit") env).modelLicense
      = SPDX_TEXTS_find "mit"
    ∧ SPDX_TEXTS_find "mit" = some mitVendoredText
    ∧ licenseAttempts env.fetchFile = ["LICENSE", "LICENSE.md", "LICENSE.txt"]
    ∧ (∀ f : String → Option String, ∀ s : String,
        f "LICENSE" = some s → s ≠ "" →
        licenseChain f = some s ∧ licenseAttempts f = ["LICENSE"])
    ∧ (∃ a b : String,
        (harvest_licenses model_id rev (some "mit") env).notice
          = a ++ "   Location: /licenses/model/LICENSE (vendored SPDX canonical text)\n"
            ++ b) := by
  have hchain : licenseChain env.fetchFile = none := by
    simp [licenseChain, h1, h2, h3, truthyOS]
  have hne : ¬ (mitVendoredText = "") := by decide
  have hfind : SPDX_TEXTS_find "mit" = some mitVendoredText := by
    simp [SPDX_TEXTS_find]
  have hfs : fetch_spdx_canonical_text "mit" env.spdxNet
      = some mitVendoredText := by
    have hl : pyLower "mit" = "mit" := by decide
    simp [fetch_spdx_canonical_text, hl, hfind]
  refine ⟨?_, hfind, ?_, ?_, ?_⟩
  · simp [harvest_licenses, hchain, hfs, truthyOS, hfind, hne]
  · simp [licenseAttempts, h1, h2, truthyOS]
  · intro f s hf hs
    have ht2 : truthyOS (some s) = true := by
      simp [truthyOS, hs]
    constructor
    · simp [licenseChain, hf, ht2]
    · simp [licenseAttempts, hf, truthyOS, hs]
  · refine ⟨"NOTICE\n\nThis Docker image contains multiple components with different licenses:\n\n1. Infrastructure Code (this repository)\n   License: CC0-1.0\n   Location: /licenses/CC0\n\n2. Model: "
        ++ model_id ++ "\n   License: " ++ orUnknown (some "mit") ++ "\n",
      (if (noticeChain env.fetchFile).isSome then
        "   Upstream NOTICE: /licenses/model/NOTICE\n"
      else "")
        ++ "\n3. vLLM (base image)\n   License: Apache-2.0\n   See: https://github.com/vllm-project/vllm\n\nModifications: This image bundles the model weights and adds startup scripts.\nAll trademarks are property of their respective owners.\n", ?_⟩
    have hlic : (harvest_licenses model_id rev (some "mit") env).notice
        = generate_project_notice model_id (some "mit") false
            ((noticeChain env.fetchFile).isSome) := by
      simp [harvest_licenses, hchain, truthyOS]
    rw [hlic]
    simp [generate_project_notice, strAppendThree]

/-- C8 witness: the fallback theorem applied to a concrete environment in
which every fetch fails, confirming the vendored MIT text and the full
three-filename attempt order. -/
theorem c8_vendored_mit_fallback_witness :
    (harvest_licenses "org/m" none (some "mit") env8w).modelLicense
      = SPDX_TEXTS_find "mit"
    ∧ licenseAttempts env8w.fetchFile
        = ["LICENSE", "LICENSE.md", "LICENSE.txt"] :=
  (fun h => ⟨h.1, h.2.2.1⟩)
    (c8_vendored_mit_fallback "org/m" none env8w rfl rfl rfl)

/-- C9 counterexample: a model that supplies an empty publish object while
the run-level defaults set dockerhub to false still gets publish_dh = true
in its matrix entry — the target left unspecified by the model does not
take the run-level default, refuting the per-target fallback claim. -/
theorem c9_publish_object_granularity_counterexample :
    cfg9cex.publish = some ⟨none, none⟩
    ∧ d9cex.publish = some ⟨some true, some false⟩
    ∧ (resolve_model cfg9cex d9cex RegistryResult.failure).publish_dh
        = true := ⟨rfl, rfl, rfl⟩

/-- C9 amended: the publish fallback is at object granularity — the flags
are read from the publish object of the model when one is supplied, and
only otherwise from the publish object of the run-level defaults; within
the chosen object a missing key defaults to true, not to the run-level
value. -/
theorem c9_publish_object_granularity (cfg : ModelConfig) (d : Defaults)
    (reg : RegistryResult) :
    (resolve_model cfg d reg).publish_ghcr
        = (match cfg.publish with
           | some p => p.ghcr.getD true
           | none => (d.publish.getD ⟨none, none⟩).ghcr.getD true)
    ∧ (resolve_model cfg d reg).publish_dh
        = (match cfg.publish with
           | some p => p.dockerhub.getD true
           | none => (d.publish.getD ⟨none, none⟩).dockerhub.getD true) := by
  constructor <;>
    (cases hc : cfg.publish <;> cases hd : d.publish <;>
      simp [resolve_model, hc, hd, Option.getD])

/-- C10: per publish key, when the matrix entry given to the renderer
lacks that key entirely — whatever the other key holds — the output is
identical to the output for the same entry with that key set to true, and
the slim tag lines for that registry (and, when build_fat holds, its fat
tag lines) appear verbatim in the rendered summary: absence of a publish
flag enables the target rather than disabling it. -/
theorem c10_missing_publish_defaults_true (e : SummaryEntry)
    (rg rd : String) :
    (e.publish_ghcr = none →
      (generate_summary e rg rd
         = generate_summary { e with publish_ghcr := some true } rg rd)
      ∧ (∃ a b : String,
          generate_summary e rg rd = a ++ ghcrSlimTags e rg ++ b)
      ∧ (e.build_fat = true →
          ∃ a b : String,
            generate_summary e rg rd = a ++ ghcrFatTags e rg ++ b))
    ∧ (e.publish_dh = none →
      (generate_summary e rg rd
         = generate_summary { e with publish_dh := some true } rg rd)
      ∧ (∃ a b : String,
          generate_summary e rg rd = a ++ dhSlimTags e rd ++ b)
      ∧ (e.build_fat = true →
          ∃ a b : String,
            generate_summary e rg rd = a ++ dhFatTags e rd ++ b)) := by
  constructor
  · intro h1
    refine ⟨?_, ?_, ?_⟩
    · simp [generate_summary, tagSection, h1, summaryHeader_pub,
        buildDecisionLines_pub, ghcrSlimTags_pub, dhSlimTags_pub,
        ghcrFatTags_pub, dhFatTags_pub, complianceUsage_pub]
    · refine ⟨summaryHeader e ++ buildDecisionLines e
          ++ "\n### Image Tags\n\n**Slim**:\n",
        (if e.publish_dh.getD true then dhSlimTags e rd else "")
          ++ (if e.build_fat then
                "\n**Fat**:\n" ++ ghcrFatTags e rg
                  ++ (if e.publish_dh.getD true then dhFatTags e rd else "")
              else "")
          ++ complianceUsage e rg ++ "\n---\n", ?_⟩
      simp [generate_summary, tagSection, h1, strAppendThree]
    · intro hb
      refine ⟨summaryHeader e ++ buildDecisionLines e
          ++ "\n### Image Tags\n\n**Slim**:\n" ++ ghcrSlimTags e rg
          ++ (if e.publish_dh.getD true then dhSlimTags e rd else "")
          ++ "\n**Fat**:\n",
        (if e.publish_dh.getD true then dhFatTags e rd else "")
          ++ complianceUsage e rg ++ "\n---\n", ?_⟩
      simp [generate_summary, tagSection, h1, hb, strAppendThree]
  · intro h2
    refine ⟨?_, ?_, ?_⟩
    · simp [generate_summary, tagSection, h2, summaryHeader_pub,
        buildDecisionLines_pub, ghcrSlimTags_pub, dhSlimTags_pub,
        ghcrFatTags_pub, dhFatTags_pub, complianceUsage_pub]
    · refine ⟨summaryHeader e ++ buildDecisionLines e
          ++ "\n### Image Tags\n\n**Slim**:\n"
          ++ (if e.publish_ghcr.getD true then ghcrSlimTags e rg else ""),
        (if e.build_fat then
            "\n**Fat**:\n"
              ++ (if e.publish_ghcr.getD true then ghcrFatTags e rg else "")
              ++ dhFatTags e rd
          else "")
          ++ complianceUsage e rg ++ "\n---\n", ?_⟩
      simp [generate_summary, tagSection, h2, strAppendThree]
    · intro hb
      refine ⟨summaryHeader e ++ buildDecisionLines e
          ++ "\n### Image Tags\n\n**Slim**:\n"
          ++ (if e.publish_ghcr.getD true then ghcrSlimTags e rg else "")
          ++ dhSlimTags e rd ++ "\n**Fat**:\n"
          ++ (if e.publish_ghcr.getD true then ghcrFatTags e rg else ""),
        complianceUsage e rg ++ "\n---\n", ?_⟩
      simp [generate_summary, tagSection, h2, hb, strAppendThree]

/-- C10 witness: the renderer theorem applied to two concrete fat-building
entries, one missing only publish_ghcr while publish_dh is explicitly
false, the other missing only publish_dh while publish_ghcr is explicitly
false — so each missing key is exercised alone. -/
theorem c10_missing_publish_defaults_true_witness :
    (generate_summary e10y "ghcr.io/13fragments" "13fragments"
       = generate_summary { e10y with publish_ghcr := some true }
           "ghcr.io/13fragments" "13fragments")
    ∧ (∃ a b : String,
        generate_summary e10y "ghcr.io/13fragments" "13fragments"
          = a ++ ghcrSlimTags e10y "ghcr.io/13fragments" ++ b)
    ∧ (∃ a b : String,
        generate_summary e10y "ghcr.io/13fragments" "13fragments"
          = a ++ ghcrFatTags e10y "ghcr.io/13fragments" ++ b)
    ∧ (generate_summary e10z "ghcr.io/13fragments" "13fragments"
       = generate_summary { e10z with publish_dh := some true }
           "ghcr.io/13fragments" "13fragments")
    ∧ (∃ a b : String,
        generate_summary e10z "ghcr.io/13fragments" "13fragments"
          = a ++ dhSlimTags e10z "13fragments" ++ b)
    ∧ (∃ a b : String,
        generate_summary e10z "ghcr.io/13fragments" "13fragments"
          = a ++ dhFatTags e10z "13fragments" ++ b) :=
  (fun hy hz =>
    ⟨hy.1, hy.2.1, hy.2.2 rfl, hz.1, hz.2.1, hz.2.2 rfl⟩)
    ((c10_missing_publish_defaults_true e10y "ghcr.io/13fragments"
        "13fragments").1 rfl)
    ((c10_missing_publish_defaults_true e10z "ghcr.io/13fragments"
        "13fragments").2 rfl)

end VllmModels
